import Mathlib

/-!
Verification of the mhcflurry experiment-runner scripts
(`experiments/nips2015-model-selection.py` and
`script/mhcflurry-dataset-size-sensitivity.py`) against their
natural-language specification.

The scripts are shallowly embedded: pure computations (hyperparameter grid
generation, metric aggregation, result-table construction) become Lean
functions over `ℚ`/`Nat`/`List`; the external Keras model is represented by
an abstract weight type `w` together with parameter functions for `fit` and
`predict`, and every interaction with the model is additionally recorded in
an explicit event trace; Python code that raises is embedded with `Except`.
External library calls whose numeric output the scripts merely forward
(`np.log`, `np.exp`, `roc_auc_score`, `f1_score`, the exact k-fold index
split drawn by sklearn's `KFold`) are parameters of the embedding, since no
claim depends on their values.
-/

namespace MhcflurryScripts

/-! ## Model configurations (`nips2015-model-selection.py`)

`ModelConfig` is the namedtuple of the script; the field order below is the
namedtuple's field order, which determines `config._fields`. -/

structure ModelConfig where
  embedding_size : Nat
  hidden_layer_size : Nat
  activation : String
  loss : String
  init : String
  n_pretrain_epochs : Nat
  n_epochs : Nat
  dropout_probability : ℚ
  max_ic50 : ℚ
deriving DecidableEq

def HIDDEN1_LAYER_SIZES : List Nat := [64, 512]

def INITILIZATION_METHODS : List String := ["glorot_uniform", "glorot_normal"]

def ACTIVATIONS : List String := ["relu", "tanh"]

def MAX_IC50_VALUES : List ℚ := [5000, 20000]

/-- Embedding of `generate_all_model_configs`: the nested loops over
activation, loss, init, `n_pretrain_epochs`, hidden layer size, embedding
size, dropout and `max_ic50`, appending one `ModelConfig` per combination. -/
def generate_all_model_configs (embedding_sizes : List Nat)
    (n_training_epochs : Nat) (max_dropout : ℚ) : List ModelConfig :=
  ACTIVATIONS.flatMap fun activation =>
  (["mse"] : List String).flatMap fun loss =>
  INITILIZATION_METHODS.flatMap fun init =>
  ([0, 10] : List Nat).flatMap fun n_pretrain_epochs =>
  HIDDEN1_LAYER_SIZES.flatMap fun hidden_layer_size =>
  embedding_sizes.flatMap fun embedding_size =>
  ([0, max_dropout] : List ℚ).flatMap fun dropout =>
  MAX_IC50_VALUES.map fun max_ic50 =>
    { embedding_size := embedding_size
      hidden_layer_size := hidden_layer_size
      activation := activation
      loss := loss
      init := init
      n_pretrain_epochs := n_pretrain_epochs
      n_epochs := n_training_epochs
      dropout_probability := dropout
      max_ic50 := max_ic50 }

/-! ## The per-configuration results table (columns and rows) -/

/-- A cell of the results CSV: the scripts write strings, integers and
floating-point statistics; floats are idealized as `ℚ`. -/
inductive Cell where
  | str (v : String)
  | nat (v : Nat)
  | rat (v : ℚ)
deriving DecidableEq

/-- One row of the `result_dict` table built by
`leave_out_allele_cross_validation` (its 12 per-allele statistics). -/
structure StatsRow where
  allele_name : String
  dataset_size : Nat
  auc_mean : ℚ
  auc_median : ℚ
  auc_std : ℚ
  auc_min : ℚ
  auc_max : ℚ
  accuracy_mean : ℚ
  accuracy_median : ℚ
  accuracy_std : ℚ
  accuracy_min : ℚ
  accuracy_max : ℚ
deriving DecidableEq

/-- Column names of `result_dict`, in the `OrderedDict` insertion order of
the source. -/
def result_column_names : List String :=
  ["allele_name", "dataset_size",
   "auc_mean", "auc_median", "auc_std", "auc_min", "auc_max",
   "accuracy_mean", "accuracy_median", "accuracy_std",
   "accuracy_min", "accuracy_max"]

def stats_row_cells (r : StatsRow) : List Cell :=
  [.str r.allele_name, .nat r.dataset_size,
   .rat r.auc_mean, .rat r.auc_median, .rat r.auc_std,
   .rat r.auc_min, .rat r.auc_max,
   .rat r.accuracy_mean, .rat r.accuracy_median, .rat r.accuracy_std,
   .rat r.accuracy_min, .rat r.accuracy_max]

/-- `ModelConfig._fields`: the namedtuple field names in declaration
order, iterated by the `__main__` block when augmenting `result_df`. -/
def model_config_field_names : List String :=
  ["embedding_size", "hidden_layer_size", "activation", "loss", "init",
   "n_pretrain_epochs", "n_epochs", "dropout_probability", "max_ic50"]

/-- `getattr(config, name)` for each field of `config._fields`, in order. -/
def model_config_cells (c : ModelConfig) : List Cell :=
  [.nat c.embedding_size, .nat c.hidden_layer_size, .str c.activation,
   .str c.loss, .str c.init, .nat c.n_pretrain_epochs, .nat c.n_epochs,
   .rat c.dropout_probability, .rat c.max_ic50]

/-- Column names of `result_df` as written to the results CSV by the
`__main__` block: the 12 statistics columns, then `config_idx`, then one
column per hyperparameter field. -/
def written_column_names : List String :=
  result_column_names ++ ["config_idx"] ++ model_config_field_names

/-- One row of `result_df` as written to the results CSV: the 12 per-allele
cells, then the configuration index, then the hyperparameter values. -/
def written_row_cells (r : StatsRow) (config_idx : Nat) (c : ModelConfig) :
    List Cell :=
  stats_row_cells r ++ [.nat config_idx] ++ model_config_cells c

/-! ## numpy statistics over `ℚ`

Embeddings of the numpy aggregation calls used by the scripts; floats are
idealized as rationals, and `np.std`'s final square root is a parameter
(`sqrtFn`), since `ℚ` has no square root. -/

/-- `np.mean`: the arithmetic mean (numpy returns `nan` on an empty array;
the scripts only call it on non-empty lists, where `/ 0` never arises). -/
def npMean (l : List ℚ) : ℚ := l.sum / l.length

/-- `np.median`: sort ascending, take the middle element for odd length and
the average of the two middle elements for even length. -/
def npMedian (l : List ℚ) : ℚ :=
  let s := l.insertionSort (fun a b => a ≤ b)
  if l.length % 2 = 1 then s.getD (l.length / 2) 0
  else (s.getD (l.length / 2 - 1) 0 + s.getD (l.length / 2) 0) / 2

/-- `np.min` on a non-empty array (0 as a don't-care value on `[]`). -/
def npMin : List ℚ → ℚ
  | [] => 0
  | x :: xs => xs.foldl min x

/-- `np.max` on a non-empty array (0 as a don't-care value on `[]`). -/
def npMax : List ℚ → ℚ
  | [] => 0
  | x :: xs => xs.foldl max x

/-- `np.std` with the default `ddof=0`: the square root of the mean of the
squared deviations from the mean; the square root is the parameter
`sqrtFn`. -/
def npStd (sqrtFn : ℚ → ℚ) (l : List ℚ) : ℚ :=
  sqrtFn (npMean (l.map (fun x => (x - npMean l) ^ 2)))

/-! ## The external model as a traced state machine

The Keras model has mutable weight state of abstract type `w`. Every
`set_weights` / `fit` / `predict` call the scripts make is recorded as an
event; a `fit` event records the weights the training run starts from and
the `nb_epoch` argument. -/

inductive MEvent (w : Type) where
  | setWeights (wt : w)
  | fit (startWeights : w) (nbEpoch : Nat)
  | predict
deriving DecidableEq

def MEvent.isFit {w : Type} : MEvent w → Bool
  | .fit _ _ => true
  | _ => false

def MEvent.fitStart {w : Type} : MEvent w → Option w
  | .fit s _ => some s
  | _ => none

/-! ## `kfold_cross_validation_for_single_allele`

The sklearn `KFold` split is a parameter `folds : List (List Nat × List Nat)`
of (train indices, test indices) pairs; `fitFn`, `predictFn`, `aucFn` and
`powFn` stand for `model.fit`, `model.predict`,
`sklearn.metrics.roc_auc_score` and Python's `**`. -/

/-- The accumulated state of the k-fold loop: the model's weights, the trace
of model interactions, and the `fold_aucs` / `fold_accuracies` lists. -/
structure KState (w : Type) where
  weights : w
  events : List (MEvent w)
  fold_aucs : List ℚ
  fold_accuracies : List ℚ
deriving DecidableEq

/-- The recomputation of `n_training_epochs` when the argument is falsy:
`int(math.ceil(0.25e6 / ((cv_folds - 1) * n_samples / cv_folds)))`.
(When `(cv_folds - 1) * n_samples = 0` Python raises `ZeroDivisionError`;
the scripts never hit that case and `ℚ`'s `x / 0 = 0` stands in.) -/
def effective_n_training_epochs (n_training_epochs cv_folds n_samples : Nat) :
    Nat :=
  if n_training_epochs = 0 then
    (⌈(250000 : ℚ) / (((cv_folds : ℚ) - 1) * (n_samples : ℚ) / (cv_folds : ℚ))⌉).toNat
  else n_training_epochs

/-- `label_test = ic50_test <= 500` for the test indices of a fold. -/
def fold_test_labels (ic50 : List ℚ) (test_idx : List Nat) : List Bool :=
  (test_idx.map (fun i => ic50.getD i 0)).map (fun v => decide (v ≤ 500))

/-- `label_test.all() or not label_test.any()`: the degenerate-fold test. -/
def labels_degenerate (labels : List Bool) : Bool :=
  labels.all (· = true) || !(labels.any (· = true))

/-- The body of one iteration of the k-fold loop. A fold with degenerate
test labels leaves the state unchanged (the `continue` branch); otherwise
the model's weights are reset to `initial_weights`, the model is fit on the
training slice, predictions on the test slice give the fold's AUC and
accuracy (`accuracy = np.mean(label_test == (max_ic50 ** (1 - pred) <= 500))`),
and both are appended. -/
def kfold_process_fold {w s : Type} (fitFn : w → List s → List ℚ → Nat → w)
    (predictFn : w → List s → List ℚ) (aucFn : List Bool → List ℚ → ℚ)
    (powFn : ℚ → ℚ → ℚ) (max_ic50 : ℚ) (n_epochs : Nat) (initial_weights : w)
    (X : List s) (Y : List ℚ) (ic50 : List ℚ) (dX : s)
    (st : KState w) (fold : List Nat × List Nat) : KState w :=
  let label_test := fold_test_labels ic50 fold.2
  if labels_degenerate label_test then st
  else
    let X_train := fold.1.map (fun i => X.getD i dX)
    let Y_train := fold.1.map (fun i => Y.getD i 0)
    let X_test := fold.2.map (fun i => X.getD i dX)
    let w1 := fitFn initial_weights X_train Y_train n_epochs
    let pred := predictFn w1 X_test
    let auc := aucFn label_test pred
    let ic50_pred := pred.map (fun p => powFn max_ic50 (1 - p))
    let accuracy := npMean ((label_test.zip ic50_pred).map
      (fun lp => if lp.1 = decide (lp.2 ≤ 500) then (1 : ℚ) else 0))
    { weights := w1
      events := st.events ++
        [.setWeights initial_weights, .fit initial_weights n_epochs, .predict]
      fold_aucs := st.fold_aucs ++ [auc]
      fold_accuracies := st.fold_accuracies ++ [accuracy] }

/-- Embedding of `kfold_cross_validation_for_single_allele`: capture the
entry weights `w0` as `initial_weights`, then iterate the folds. -/
def kfold_cross_validation_for_single_allele {w s : Type}
    (fitFn : w → List s → List ℚ → Nat → w) (predictFn : w → List s → List ℚ)
    (aucFn : List Bool → List ℚ → ℚ) (powFn : ℚ → ℚ → ℚ) (max_ic50 : ℚ)
    (n_training_epochs cv_folds : Nat) (w0 : w)
    (X : List s) (Y : List ℚ) (ic50 : List ℚ) (dX : s)
    (folds : List (List Nat × List Nat)) : KState w :=
  folds.foldl
    (kfold_process_fold fitFn predictFn aucFn powFn max_ic50
      (effective_n_training_epochs n_training_epochs cv_folds Y.length) w0 X Y ic50 dX)
    { weights := w0, events := [], fold_aucs := [], fold_accuracies := [] }

/-! ## `leave_out_allele_cross_validation`

`allele_datasets` maps allele names to datasets with fields `X` (peptide
encodings, abstract element type `s`) and `ic50`. `normFn` stands for
`mhcflurry.common.normalize_allele_name`, `encFn` for
`indices_to_hotshot_encoding`, `logFn` for `np.log`, `sqrtFn` for the square
root inside `np.std`, and `foldsFn n` for the `KFold` split that sklearn
draws for `n` samples. -/

structure AlleleDataset (s : Type) where
  X : List s
  ic50 : List ℚ
deriving DecidableEq

/-- Python's `str.isdigit`: non-empty and all characters are digits. -/
def pyIsdigit (t : String) : Bool :=
  t.length ≠ 0 && t.data.all Char.isDigit

/-- Embedding of the Python expression `other_allele.ic50` in the
pre-training block, where `other_allele` ranges over the string keys of
`allele_datasets.items()`: a `str` has no attribute `ic50`, so the access
raises `AttributeError` (the dataset's array, `other_dataset.ic50`, is never
consulted). -/
def str_attr_ic50 (key : String) : Except String (List ℚ) :=
  Except.error ("AttributeError: str object has no attribute ic50 (key " ++ key ++ ")")

/-- Embedding of the pre-training data construction (the
`n_pretrain_epochs > 0` block): `X_other_alleles` is `np.vstack` of the
other datasets' `X` arrays (raising `ValueError` on an empty list), followed
by the `ic50` list comprehension, which evaluates `other_allele.ic50` on
each string key. -/
def pretrain_arrays {s : Type} (normFn : String → String)
    (encFn : List s → List s) (binary_encoding : Bool)
    (allele_datasets : List (String × AlleleDataset s)) (allele_name : String) :
    Except String (List s × List ℚ) :=
  let others := allele_datasets.filter (fun p => normFn p.1 ≠ allele_name)
  if others.isEmpty then
    Except.error "ValueError: need at least one array to concatenate"
  else
    let X_other0 := (others.map (fun p => p.2.X)).flatten
    let X_other := if binary_encoding then encFn X_other0 else X_other0
    match others.mapM (fun p => str_attr_ic50 p.1) with
    | .error e => .error e
    | .ok ls => .ok (X_other, ls.flatten)

/-- The `result_dict` append block at the end of an allele's successful
cross-validation: each statistics column receives the corresponding numpy
aggregate of the per-fold AUCs / accuracies. -/
def build_stats_row (sqrtFn : ℚ → ℚ) (allele_name : String)
    (dataset_size : Nat) (aucs accuracies : List ℚ) : StatsRow :=
  { allele_name := allele_name
    dataset_size := dataset_size
    auc_mean := npMean aucs
    auc_median := npMedian aucs
    auc_std := npStd sqrtFn aucs
    auc_min := npMin aucs
    auc_max := npMax aucs
    accuracy_mean := npMean accuracies
    accuracy_median := npMedian accuracies
    accuracy_std := npStd sqrtFn accuracies
    accuracy_min := npMin accuracies
    accuracy_max := npMax accuracies }

/-- `Y = 1.0 - np.minimum(1.0, np.log(ic50) / np.log(max_ic50))`. -/
def rescale_ic50 (logFn : ℚ → ℚ) (max_ic50 : ℚ) (ic50 : List ℚ) : List ℚ :=
  ic50.map (fun v => 1 - min 1 (logFn v / logFn max_ic50))

/-- The body of one iteration of the allele loop of
`leave_out_allele_cross_validation`: returns the model events of the
iteration together with either the error it raises, or the `StatsRow` it
appends (`none` when the allele is skipped). Name-skipped and
too-few-samples alleles produce no events; otherwise the entry weights `w0`
are restored first, then (when `n_pretrain_epochs > 0`) the pre-training
data is built and fit, and finally `kfold_cross_validation_for_single_allele`
runs with `config.n_epochs` training epochs. -/
def leave_out_process_allele {w s : Type} (normFn : String → String)
    (encFn : List s → List s) (logFn : ℚ → ℚ) (sqrtFn : ℚ → ℚ)
    (fitFn : w → List s → List ℚ → Nat → w) (predictFn : w → List s → List ℚ)
    (aucFn : List Bool → List ℚ → ℚ) (powFn : ℚ → ℚ → ℚ)
    (binary_encoding : Bool) (n_pretrain_epochs min_samples_per_allele : Nat)
    (cv_folds : Nat) (max_ic50 : ℚ) (config_n_epochs : Nat) (w0 : w) (dX : s)
    (foldsFn : Nat → List (List Nat × List Nat))
    (allele_datasets : List (String × AlleleDataset s))
    (pair : String × AlleleDataset s) :
    List (MEvent w) × Except String (Option StatsRow) :=
  if pyIsdigit pair.1 || pair.1.length < 5 then ([], .ok none)
  else
    let allele_name := normFn pair.1
    let X0 := pair.2.X
    if X0.length < min_samples_per_allele then ([], .ok none)
    else
      let X_allele := if binary_encoding then encFn X0 else X0
      let ic50_allele := pair.2.ic50
      let Y_allele := rescale_ic50 logFn max_ic50 ic50_allele
      if 0 < n_pretrain_epochs then
        match pretrain_arrays normFn encFn binary_encoding allele_datasets allele_name with
        | .error e => ([.setWeights w0], .error e)
        | .ok (X_other, ic50_other) =>
          let Y_other := rescale_ic50 logFn max_ic50 ic50_other
          let w1 := fitFn w0 X_other Y_other n_pretrain_epochs
          let st := kfold_cross_validation_for_single_allele fitFn predictFn
            aucFn powFn max_ic50 config_n_epochs cv_folds w1
            X_allele Y_allele ic50_allele dX (foldsFn Y_allele.length)
          (.setWeights w0 :: .fit w0 n_pretrain_epochs :: st.events,
           .ok (if st.fold_aucs.isEmpty then none
                else some (build_stats_row sqrtFn allele_name ic50_allele.length
                  st.fold_aucs st.fold_accuracies)))
      else
        let st := kfold_cross_validation_for_single_allele fitFn predictFn
          aucFn powFn max_ic50 config_n_epochs cv_folds w0
          X_allele Y_allele ic50_allele dX (foldsFn Y_allele.length)
        (.setWeights w0 :: st.events,
         .ok (if st.fold_aucs.isEmpty then none
              else some (build_stats_row sqrtFn allele_name ic50_allele.length
                st.fold_aucs st.fold_accuracies)))

/-- The allele loop: process the alleles in order, concatenating events and
collecting appended rows, stopping at the first raised error (Python
propagates the exception out of the function). -/
def leave_out_loop {w s : Type} (normFn : String → String)
    (encFn : List s → List s) (logFn : ℚ → ℚ) (sqrtFn : ℚ → ℚ)
    (fitFn : w → List s → List ℚ → Nat → w) (predictFn : w → List s → List ℚ)
    (aucFn : List Bool → List ℚ → ℚ) (powFn : ℚ → ℚ → ℚ)
    (binary_encoding : Bool) (n_pretrain_epochs min_samples_per_allele : Nat)
    (cv_folds : Nat) (max_ic50 : ℚ) (config_n_epochs : Nat) (w0 : w) (dX : s)
    (foldsFn : Nat → List (List Nat × List Nat))
    (allele_datasets : List (String × AlleleDataset s)) :
    List (String × AlleleDataset s) →
      List (MEvent w) × Except String (List StatsRow)
  | [] => ([], .ok [])
  | p :: rest =>
    match leave_out_process_allele normFn encFn logFn sqrtFn fitFn predictFn
      aucFn powFn binary_encoding n_pretrain_epochs min_samples_per_allele
      cv_folds max_ic50 config_n_epochs w0 dX foldsFn allele_datasets p with
    | (ev, .error e) => (ev, .error e)
    | (ev, .ok r) =>
      match leave_out_loop normFn encFn logFn sqrtFn fitFn predictFn aucFn
        powFn binary_encoding n_pretrain_epochs min_samples_per_allele
        cv_folds max_ic50 config_n_epochs w0 dX foldsFn allele_datasets rest with
      | (ev2, .error e) => (ev ++ ev2, .error e)
      | (ev2, .ok rows) => (ev ++ ev2, .ok ((r.toList) ++ rows))

/-- Embedding of `leave_out_allele_cross_validation`: capture the entry
weights, sort `allele_datasets.items()` by allele name, and run the allele
loop. -/
def leave_out_allele_cross_validation {w s : Type} (normFn : String → String)
    (encFn : List s → List s) (logFn : ℚ → ℚ) (sqrtFn : ℚ → ℚ)
    (fitFn : w → List s → List ℚ → Nat → w) (predictFn : w → List s → List ℚ)
    (aucFn : List Bool → List ℚ → ℚ) (powFn : ℚ → ℚ → ℚ)
    (binary_encoding : Bool) (n_pretrain_epochs min_samples_per_allele : Nat)
    (cv_folds : Nat) (max_ic50 : ℚ) (config_n_epochs : Nat) (w0 : w) (dX : s)
    (foldsFn : Nat → List (List Nat × List Nat))
    (allele_datasets : List (String × AlleleDataset s)) :
    List (MEvent w) × Except String (List StatsRow) :=
  leave_out_loop normFn encFn logFn sqrtFn fitFn predictFn aucFn powFn
    binary_encoding n_pretrain_epochs min_samples_per_allele cv_folds
    max_ic50 config_n_epochs w0 dX foldsFn allele_datasets
    (allele_datasets.insertionSort (fun a b => a.1 ≤ b.1))

/-! ## The results CSV of the model-selection `__main__` block

`file_mode` is the mode the results file is opened with for configuration
`i`; the file content is modelled as the list of per-configuration blocks
(`result_df.to_csv` output) it holds, with `"w"` truncating and `"a"`
appending. -/

def file_mode (i : Nat) : String := if 0 < i then "a" else "w"

def write_with_mode {β : Type} (content : List β) (mode : String) (block : β) :
    List β :=
  if mode = "w" then [block] else content ++ [block]

/-- The results file's content after the `__main__` loop has written the
given per-configuration blocks (in configuration order, starting from
whatever `initial` content the file had before the run). -/
def results_file_after {β : Type} (initial : List β) (blocks : List β) :
    List β :=
  blocks.enum.foldl
    (fun content ib => write_with_mode content (file_mode ib.1) ib.2) initial

/-! ## `subsample_performance` (`mhcflurry-dataset-size-sensitivity.py`)

`logFn` / `expFn` stand for `np.log` / `np.exp`; the AUC and F1 values of a
(refit of a) repetition are abstracted as functions of the sample-size index,
the repetition number and the imputation flag, since they come from the
external predictor. `freshW i r` is the weight state of the model freshly
built by `model_fn()` for that repetition. -/

/-- One row of the `results` table of `subsample_performance`. -/
structure SubsampleRow where
  num_samples : ℤ
  idx : Nat
  auc : ℚ
  f1 : ℚ
  impute : Bool
deriving DecidableEq

/-- `np.linspace(a, b, num)` with the default inclusive endpoint. -/
def linspace (a b : ℚ) (num : Nat) : List ℚ :=
  if num = 0 then []
  else if num = 1 then [a]
  else (List.range num).map (fun i : ℕ => a + (b - a) * (i : ℚ) / ((num : ℚ) - 1))

/-- numpy's `astype(int)`: truncation toward zero. -/
def py_trunc (q : ℚ) : ℤ := q.num / (q.den : ℤ)

/-- `sample_sizes = np.exp(np.linspace(np.log(min), np.log(max), num)).astype(int) + 1`. -/
def sample_sizes (logFn expFn : ℚ → ℚ)
    (min_training_samples max_training_samples n_subsample_sizes : Nat) :
    List ℤ :=
  (linspace (logFn min_training_samples) (logFn max_training_samples)
      n_subsample_sizes).map
    (fun x => py_trunc (expFn x) + 1)

/-- The rows appended by one repetition (one run of the inner loop body)
for sample-size index `i` and repetition `r`: a non-imputed row always, then
an imputed row exactly when `dataset_imputed` is not `None`, i.e. when an
imputer was supplied. -/
def subsample_repetition_rows (aucFn f1Fn : Nat → Nat → Bool → ℚ)
    (has_imputer : Bool) (n_train : ℤ) (i r : Nat) : List SubsampleRow :=
  { num_samples := n_train, idx := i, auc := aucFn i r false,
    f1 := f1Fn i r false, impute := false } ::
  (if has_imputer then
    [{ num_samples := n_train, idx := i, auc := aucFn i r true,
       f1 := f1Fn i r true, impute := true }]
   else [])

/-- The model interactions of one repetition: a fresh model is built
(weights `freshW i r`), its initial weights are snapshotted by
`get_weights`, `fit_dataset` trains it from those weights and `predict`
evaluates it; when an imputer was supplied, `set_weights` restores the
snapshot and the imputed `fit_dataset` / `predict` pass runs. -/
def subsample_repetition_events {w : Type} (freshW : Nat → Nat → w)
    (n_training_epochs : Nat) (has_imputer : Bool) (i r : Nat) :
    List (MEvent w) :=
  [.fit (freshW i r) n_training_epochs, .predict] ++
  (if has_imputer then
    [.setWeights (freshW i r), .fit (freshW i r) n_training_epochs, .predict]
   else [])

/-- The rows of the table returned by `subsample_performance`: the training
set bound is first clamped to `min((2 * n_total) // 3, max_training_samples)`,
the log-spaced sample sizes are computed, and the doubly nested loop
(`for i, n_train in enumerate(sample_sizes): for _ in range(n_repeats_per_size)`)
appends each repetition's rows in order.

Modelled from the spec: `Dataset.split_allele_randomly_and_impute_training_set`
(mhcflurry.dataset, not under `src/`) returns a train/imputed/test triple;
per the spec's imputation flag semantics the imputed training set is present
exactly when an imputer was supplied, so `dataset_imputed is None` reduces
to `has_imputer = false`. -/
def subsample_performance_rows (aucFn f1Fn : Nat → Nat → Bool → ℚ)
    (has_imputer : Bool) (logFn expFn : ℚ → ℚ)
    (min_training_samples max_training_samples n_subsample_sizes
      n_repeats_per_size n_total : Nat) : List SubsampleRow :=
  (sample_sizes logFn expFn min_training_samples
      (min ((2 * n_total) / 3) max_training_samples) n_subsample_sizes).enum.flatMap
    (fun p =>
      (List.range n_repeats_per_size).flatMap (fun r =>
        subsample_repetition_rows aucFn f1Fn has_imputer p.2 p.1 r))

/-- The model-interaction trace of `subsample_performance`, the repetitions'
event blocks in loop order. -/
def subsample_performance_trace {w : Type} (freshW : Nat → Nat → w)
    (n_training_epochs : Nat) (has_imputer : Bool) (logFn expFn : ℚ → ℚ)
    (min_training_samples max_training_samples n_subsample_sizes
      n_repeats_per_size n_total : Nat) : List (MEvent w) :=
  (sample_sizes logFn expFn min_training_samples
      (min ((2 * n_total) / 3) max_training_samples) n_subsample_sizes).enum.flatMap
    (fun p =>
      (List.range n_repeats_per_size).flatMap (fun r =>
        subsample_repetition_events freshW n_training_epochs has_imputer p.1 r))

/-! ## The `__main__` block of the dataset-size-sensitivity script

After `subsample_performance` returns, the script prints the table and, for
each of the two metrics, draws a violin plot and saves it as a PNG; the
emitted artifacts are modelled as a list. -/

inductive ScriptOutput where
  | printTable
  | savePng (filename : String)
  | writeCsv (filename : String)
deriving DecidableEq

def ScriptOutput.isCsvWrite : ScriptOutput → Bool
  | .writeCsv _ => true
  | _ => false

/-- The plot filename pattern of the script's `savefig` call. -/
def plot_filename (allele metric hidden activation imputation : String) :
    String :=
  allele ++ "-" ++ metric ++ "-vs-nsamples-hidden-" ++ hidden ++
    "-activation-" ++ activation ++ "-impute-" ++ imputation ++ ".png"

/-- The artifacts emitted by the `__main__` block after
`subsample_performance` returns: `print(results_df)`, then one saved PNG per
metric in `["auc", "f1"]`. -/
def size_sensitivity_main_outputs (allele hidden activation imputation : String) :
    List ScriptOutput :=
  ScriptOutput.printTable ::
  (["auc", "f1"].map (fun metric =>
    ScriptOutput.savePng (plot_filename allele metric hidden activation imputation)))

/-- Specification-side characterization of the five summary statistics of a
list: `mean` is the arithmetic mean (stated multiplicatively), `median` is
the middle of a sorted rearrangement (average of the two middles for even
length), `std` is the square root of the population variance, and `mn` /
`mx` are members of the list bounding it below / above. -/
def describes_stats (sqrtFn : ℚ → ℚ) (l : List ℚ)
    (mean median std mn mx : ℚ) : Prop :=
  mean * l.length = l.sum ∧
  (∃ t : List ℚ, t.Perm l ∧ t.Sorted (· ≤ ·) ∧
    median = (if l.length % 2 = 1 then t.getD (l.length / 2) 0
              else (t.getD (l.length / 2 - 1) 0 + t.getD (l.length / 2) 0) / 2)) ∧
  std = sqrtFn (npMean (l.map (fun x => (x - npMean l) ^ 2))) ∧
  mn ∈ l ∧ (∀ y ∈ l, mn ≤ y) ∧
  mx ∈ l ∧ (∀ y ∈ l, y ≤ mx)

/-! ## Helper lemmas -/

theorem linspace_length (a b : ℚ) (num : Nat) : (linspace a b num).length = num := by
  unfold linspace
  split
  · simp [*]
  · split
    · simp [*]
    · rw [List.length_map, List.length_range]

theorem sample_sizes_length (logFn expFn : ℚ → ℚ) (mn mx nS : Nat) :
    (sample_sizes logFn expFn mn mx nS).length = nS := by
  simp [sample_sizes, linspace_length]

theorem flatMap_length_const {α β : Type} (l : List α) (f : α → List β) (m : Nat)
    (h : ∀ a ∈ l, (f a).length = m) : (l.flatMap f).length = l.length * m := by
  induction l with
  | nil => simp
  | cons x xs ih =>
    simp only [List.flatMap_cons, List.length_append, List.length_cons]
    rw [h x (by simp), ih (fun a ha => h a (by simp [ha])), Nat.succ_mul,
      Nat.add_comm]

theorem flatMap_const_replicate {α β : Type} (l : List α) (k : Nat) (b : β) :
    (l.flatMap fun _ => List.replicate k b) = List.replicate (l.length * k) b := by
  induction l with
  | nil => simp
  | cons x xs ih =>
    simp only [List.flatMap_cons, ih, List.length_cons, Nat.succ_mul, Nat.add_comm,
      List.replicate_add]

theorem foldl_min_mem (xs : List ℚ) : ∀ x : ℚ, xs.foldl min x ∈ x :: xs := by
  induction xs with
  | nil => intro x; simp
  | cons y ys ih =>
    intro x
    have h := ih (min x y)
    rcases min_choice x y with hm | hm <;> rw [hm] at h <;>
      simp only [List.foldl_cons, hm] <;>
      rcases List.mem_cons.mp h with h' | h' <;> simp [h']

theorem foldl_min_le (xs : List ℚ) : ∀ x y : ℚ, y ∈ x :: xs → xs.foldl min x ≤ y := by
  induction xs with
  | nil =>
    intro x y hy
    simp only [List.mem_singleton] at hy
    simp [hy]
  | cons z zs ih =>
    intro x y hy
    simp only [List.foldl_cons]
    rcases List.mem_cons.mp hy with hy1 | hy'
    · rw [hy1]
      exact le_trans (ih (min x z) (min x z) (by simp)) (min_le_left _ _)
    · rcases List.mem_cons.mp hy' with hy2 | hy''
      · rw [hy2]
        exact le_trans (ih (min x z) (min x z) (by simp)) (min_le_right _ _)
      · exact ih (min x z) y (by simp [hy''])

theorem foldl_max_mem (xs : List ℚ) : ∀ x : ℚ, xs.foldl max x ∈ x :: xs := by
  induction xs with
  | nil => intro x; simp
  | cons y ys ih =>
    intro x
    have h := ih (max x y)
    rcases max_choice x y with hm | hm <;> rw [hm] at h <;>
      simp only [List.foldl_cons, hm] <;>
      rcases List.mem_cons.mp h with h' | h' <;> simp [h']

theorem le_foldl_max (xs : List ℚ) : ∀ x y : ℚ, y ∈ x :: xs → y ≤ xs.foldl max x := by
  induction xs with
  | nil =>
    intro x y hy
    simp only [List.mem_singleton] at hy
    simp [hy]
  | cons z zs ih =>
    intro x y hy
    simp only [List.foldl_cons]
    rcases List.mem_cons.mp hy with hy1 | hy'
    · rw [hy1]
      exact le_trans (le_max_left _ _) (ih (max x z) (max x z) (by simp))
    · rcases List.mem_cons.mp hy' with hy2 | hy''
      · rw [hy2]
        exact le_trans (le_max_right _ _) (ih (max x z) (max x z) (by simp))
      · exact ih (max x z) y (by simp [hy''])

theorem results_file_after_cons {β : Type} (initial : List β) (b : β)
    (rest : List β) : results_file_after initial (b :: rest) = b :: rest := by
  have key : ∀ (bs : List β) (k : Nat) (content : List β), 1 ≤ k →
      (bs.enumFrom k).foldl
        (fun c ib => write_with_mode c (file_mode ib.1) ib.2) content
        = content ++ bs := by
    intro bs
    induction bs with
    | nil => intro k c _; simp [List.enumFrom]
    | cons x xs ih =>
      intro k c hk
      have hmode : file_mode k = "a" := by
        simp [file_mode, Nat.lt_of_lt_of_le Nat.zero_lt_one hk]
      simp only [List.enumFrom, List.foldl_cons]
      rw [show write_with_mode c (file_mode k) x = c ++ [x] by
        simp [hmode, write_with_mode]]
      rw [ih (k + 1) (c ++ [x]) (by omega)]
      simp
  show (List.enumFrom 0 (b :: rest)).foldl
      (fun c ib => write_with_mode c (file_mode ib.1) ib.2) initial = b :: rest
  simp only [List.enumFrom, List.foldl_cons]
  rw [show write_with_mode initial (file_mode 0) b = [b] by
    simp [file_mode, write_with_mode]]
  rw [key rest 1 [b] le_rfl]
  simp

/-- One k-fold iteration either leaves the trace unchanged (degenerate fold)
or extends it with the restore / fit-from-`initial_weights` / predict block. -/
theorem kfold_process_fold_events {w s : Type}
    (fitFn : w → List s → List ℚ → Nat → w) (predictFn : w → List s → List ℚ)
    (aucFn : List Bool → List ℚ → ℚ) (powFn : ℚ → ℚ → ℚ) (max_ic50 : ℚ)
    (n_epochs : Nat) (w0 : w) (X : List s) (Y ic50 : List ℚ) (dX : s)
    (st : KState w) (fold : List Nat × List Nat) :
    (kfold_process_fold fitFn predictFn aucFn powFn max_ic50 n_epochs w0
        X Y ic50 dX st fold).events = st.events ∨
    (kfold_process_fold fitFn predictFn aucFn powFn max_ic50 n_epochs w0
        X Y ic50 dX st fold).events =
      st.events ++ [.setWeights w0, .fit w0 n_epochs, .predict] := by
  by_cases hd : labels_degenerate (fold_test_labels ic50 fold.2) = true
  · left
    simp [kfold_process_fold, hd]
  · right
    simp [kfold_process_fold, hd]

/-- Invariant of the k-fold loop: every `fit` event in the trace starts from
the `initial_weights` captured at entry. -/
theorem kfold_foldl_fit_invariant {w s : Type}
    (fitFn : w → List s → List ℚ → Nat → w) (predictFn : w → List s → List ℚ)
    (aucFn : List Bool → List ℚ → ℚ) (powFn : ℚ → ℚ → ℚ) (max_ic50 : ℚ)
    (n_epochs : Nat) (w0 : w) (X : List s) (Y ic50 : List ℚ) (dX : s) :
    ∀ (folds : List (List Nat × List Nat)) (st : KState w),
      (∀ e ∈ st.events, e.isFit = true → e.fitStart = some w0) →
      ∀ e ∈ (folds.foldl
          (kfold_process_fold fitFn predictFn aucFn powFn max_ic50 n_epochs w0
            X Y ic50 dX) st).events,
        e.isFit = true → e.fitStart = some w0 := by
  intro folds
  induction folds with
  | nil => intro st hst; exact hst
  | cons fold rest ih =>
    intro st hst
    refine ih _ ?_
    intro e he hf
    rcases kfold_process_fold_events fitFn predictFn aucFn powFn max_ic50
        n_epochs w0 X Y ic50 dX st fold with hev | hev
    · rw [hev] at he
      exact hst e he hf
    · rw [hev] at he
      simp only [List.mem_append] at he
      rcases he with he | he
      · exact hst e he hf
      · simp only [List.mem_cons, List.not_mem_nil, or_false] at he
        rcases he with rfl | rfl | rfl
        · simp [MEvent.isFit] at hf
        · rfl
        · simp [MEvent.isFit] at hf

/-! ## Claims -/

/-- Claim C9 (counterexample): `generate_all_model_configs` with
`embedding_sizes = [0, 64]` does not return 256 configurations — the cross
product 2·1·2·2·2·2·2·2 has 128 elements. -/
theorem c9_counterexample :
    (generate_all_model_configs [0, 64] 125 (1/4)).length = 128 ∧
    (generate_all_model_configs [0, 64] 125 (1/4)).length ≠ 256 := by
  constructor
  · rfl
  · intro h
    rw [show (generate_all_model_configs [0, 64] 125 (1/4)).length = 128 from rfl] at h
    exact absurd h (by decide)

/-- Claim C9 (amended): for every choice of `n_training_epochs` and
`max_dropout`, `generate_all_model_configs` with `embedding_sizes = [0, 64]`
returns exactly 128 configurations — the full cross product of 2
activations, 1 loss, 2 initialization methods, 2 pretrain-epoch values, 2
hidden-layer sizes, 2 embedding sizes, 2 dropout values and 2 max-IC50
values — and every returned configuration has loss `"mse"` and `n_epochs`
equal to the `n_training_epochs` argument. -/
theorem c9_config_grid (n_training_epochs : Nat) (max_dropout : ℚ) :
    (generate_all_model_configs [0, 64] n_training_epochs max_dropout).length
      = 128 ∧
    (generate_all_model_configs [0, 64] n_training_epochs max_dropout).all
      (fun c => c.loss == "mse" && c.n_epochs == n_training_epochs) = true := by
  constructor
  · rfl
  · simp [generate_all_model_configs, ACTIVATIONS, INITILIZATION_METHODS,
      HIDDEN1_LAYER_SIZES, MAX_IC50_VALUES, List.all_eq_true]

/-- Claim C5: every row written to the results CSV by the model-selection
script's `__main__` block consists of exactly the allele name, the allele's
dataset size, the five AUC summary statistics, the five accuracy summary
statistics, the configuration index, and the value of each of the nine
hyperparameter fields of that configuration's `ModelConfig`, under matching
column names. -/
theorem c5_written_row_contents :
    written_column_names =
      ["allele_name", "dataset_size",
       "auc_mean", "auc_median", "auc_std", "auc_min", "auc_max",
       "accuracy_mean", "accuracy_median", "accuracy_std",
       "accuracy_min", "accuracy_max", "config_idx",
       "embedding_size", "hidden_layer_size", "activation", "loss", "init",
       "n_pretrain_epochs", "n_epochs", "dropout_probability", "max_ic50"] ∧
    ∀ (r : StatsRow) (i : Nat) (c : ModelConfig),
      written_row_cells r i c =
        [.str r.allele_name, .nat r.dataset_size,
         .rat r.auc_mean, .rat r.auc_median, .rat r.auc_std,
         .rat r.auc_min, .rat r.auc_max,
         .rat r.accuracy_mean, .rat r.accuracy_median, .rat r.accuracy_std,
         .rat r.accuracy_min, .rat r.accuracy_max,
         .nat i,
         .nat c.embedding_size, .nat c.hidden_layer_size, .str c.activation,
         .str c.loss, .str c.init, .nat c.n_pretrain_epochs, .nat c.n_epochs,
         .rat c.dropout_probability, .rat c.max_ic50] ∧
      (written_row_cells r i c).length = written_column_names.length :=
  ⟨rfl, fun _ _ _ => ⟨rfl, rfl⟩⟩

/-- Claim C4 (counterexample): the dataset-size-sensitivity script's
`__main__` block emits no CSV write at all — at the default arguments its
artifacts after `subsample_performance` returns contain no CSV output. -/
theorem c4_counterexample :
    ((size_sensitivity_main_outputs "A0201" "64" "tanh" "mice").any
      ScriptOutput.isCsvWrite) = false := rfl

/-- Claim C4 (amended): every run of the dataset-size-sensitivity script
that reaches the end of its main block prints the accumulated results table
and persists it as two PNG violin plots (one for AUC, one for F1) — not as
a CSV file. -/
theorem c4_outputs_are_plots (allele hidden activation imputation : String) :
    size_sensitivity_main_outputs allele hidden activation imputation =
      [.printTable,
       .savePng (plot_filename allele "auc" hidden activation imputation),
       .savePng (plot_filename allele "f1" hidden activation imputation)] ∧
    (size_sensitivity_main_outputs allele hidden activation imputation).all
      (fun o => !o.isCsvWrite) = true :=
  ⟨rfl, rfl⟩

/-- Claim C8: the pre-training data construction of
`leave_out_allele_cross_validation` raises `AttributeError` whenever at
least one other allele is present, because the `ic50` list comprehension
evaluates `other_allele.ic50` on the string keys of `allele_datasets`
instead of `other_dataset.ic50` — here shown at a concrete two-allele
dataset. -/
theorem c8_pretrain_attribute_error :
    pretrain_arrays (fun n => n) (fun x => x) false
      [("A0201", ⟨([1, 2, 3, 4, 5] : List ℚ), [10, 20, 30, 40, 50]⟩),
       ("B0702", ⟨([6, 7, 8, 9, 10] : List ℚ), [60, 70, 80, 90, 100]⟩)]
      "A0201"
      = Except.error
          "AttributeError: str object has no attribute ic50 (key B0702)" := by
  rfl

/-- Claim C7: within one run of the model-selection script, the results CSV
is opened with truncating mode `"w"` only for configuration 0 and with
append mode `"a"` for every later configuration, and after any
configuration `j` has been written the file holds exactly the blocks of
configurations `0..j` in order — so a block written for configuration `i`
is never overwritten or deleted by any later configuration `j > i`. -/
theorem c7_results_file_append_only {β : Type} (initial : List β)
    (blocks : List β) :
    file_mode 0 = "w" ∧ (∀ i, 0 < i → file_mode i = "a") ∧
    ∀ j < blocks.length,
      results_file_after initial (blocks.take (j + 1)) = blocks.take (j + 1) := by
  refine ⟨rfl, fun i hi => by simp [file_mode, hi], fun j hj => ?_⟩
  have hne : blocks.take (j + 1) ≠ [] := by
    intro h
    have := congrArg List.length h
    simp only [List.length_take, List.length_nil] at this
    omega
  obtain ⟨b, rest, hbr⟩ := List.exists_cons_of_ne_nil hne
  rw [hbr]
  exact results_file_after_cons initial b rest

/-- Claim C1: a cross-validation fold whose test-set labels (`ic50 <= 500`)
are all true or all false is skipped — the iteration performs no model
interaction (no fit, no predict), appends nothing to `fold_aucs` or
`fold_accuracies`, returns normally rather than raising, and the k-fold run
over the remaining folds proceeds exactly as if the degenerate fold were
absent. -/
theorem c1_degenerate_fold_skipped {w s : Type}
    (fitFn : w → List s → List ℚ → Nat → w) (predictFn : w → List s → List ℚ)
    (aucFn : List Bool → List ℚ → ℚ) (powFn : ℚ → ℚ → ℚ) (max_ic50 : ℚ)
    (n_training_epochs cv_folds : Nat) (w0 : w) (X : List s) (Y ic50 : List ℚ)
    (dX : s) (fold : List Nat × List Nat)
    (hdeg : labels_degenerate (fold_test_labels ic50 fold.2) = true) :
    (∀ (n_epochs : Nat) (st : KState w),
      kfold_process_fold fitFn predictFn aucFn powFn max_ic50 n_epochs w0
        X Y ic50 dX st fold = st) ∧
    ∀ folds₁ folds₂,
      kfold_cross_validation_for_single_allele fitFn predictFn aucFn powFn
          max_ic50 n_training_epochs cv_folds w0 X Y ic50 dX
          (folds₁ ++ fold :: folds₂)
        = kfold_cross_validation_for_single_allele fitFn predictFn aucFn powFn
          max_ic50 n_training_epochs cv_folds w0 X Y ic50 dX
          (folds₁ ++ folds₂) := by
  have h1 : ∀ (n_epochs : Nat) (st : KState w),
      kfold_process_fold fitFn predictFn aucFn powFn max_ic50 n_epochs w0
        X Y ic50 dX st fold = st := by
    intro nE st
    simp [kfold_process_fold, hdeg]
  refine ⟨h1, fun folds₁ folds₂ => ?_⟩
  unfold kfold_cross_validation_for_single_allele
  rw [List.foldl_append, List.foldl_append, List.foldl_cons, h1]

/-- Claim C1 witness: the theorem applied at a concrete fold whose single
test label is true (`ic50 = 200 <= 500`). -/
theorem c1_degenerate_fold_skipped_witness :
    labels_degenerate
        (fold_test_labels [(100 : ℚ), 200] (([0], [1]) : List Nat × List Nat).2)
      = true ∧
    kfold_cross_validation_for_single_allele
        (fun (a : Nat) (_ : List Nat) (_ : List ℚ) (_ : Nat) => a)
        (fun _ _ => []) (fun _ _ => 0) (fun _ _ => 0) 5000 3 5 7
        [1, 2] [0, 0] [(100 : ℚ), 200] 0 ([] ++ ([0], [1]) :: [])
      = kfold_cross_validation_for_single_allele
        (fun (a : Nat) (_ : List Nat) (_ : List ℚ) (_ : Nat) => a)
        (fun _ _ => []) (fun _ _ => 0) (fun _ _ => 0) 5000 3 5 7
        [1, 2] [0, 0] [(100 : ℚ), 200] 0 ([] ++ []) :=
  ⟨by decide,
   (c1_degenerate_fold_skipped
      (fun (a : Nat) (_ : List Nat) (_ : List ℚ) (_ : Nat) => a)
      (fun _ _ => []) (fun _ _ => 0) (fun _ _ => 0) 5000 3 5 7
      [1, 2] [0, 0] [(100 : ℚ), 200] 0 ([0], [1]) (by decide)).2 [] []⟩

/-- Claim C10: every completed `subsample_performance` call yields, per
(sample-size, repetition) pair, exactly one row with `impute = False` plus
exactly one row with `impute = True` if and only if an imputer was
supplied; the total row count is `n_subsample_sizes * n_repeats_per_size`
without an imputer and twice that with one. -/
theorem c10_row_counts (aucFn f1Fn : Nat → Nat → Bool → ℚ)
    (has_imputer : Bool) (logFn expFn : ℚ → ℚ)
    (mnT mxT nS nR nTot : Nat) :
    (∀ (i r : Nat) (n_train : ℤ),
      (subsample_repetition_rows aucFn f1Fn has_imputer n_train i r).countP
          (fun row => row.impute == false) = 1 ∧
      (subsample_repetition_rows aucFn f1Fn has_imputer n_train i r).countP
          (fun row => row.impute == true) = if has_imputer then 1 else 0) ∧
    (subsample_performance_rows aucFn f1Fn has_imputer logFn expFn
        mnT mxT nS nR nTot).length
      = nS * nR * (if has_imputer then 2 else 1) := by
  constructor
  · intro i r n_train
    cases has_imputer <;>
      simp [subsample_repetition_rows, List.countP_cons]
  · unfold subsample_performance_rows
    rw [flatMap_length_const _ _ (nR * (if has_imputer then 2 else 1))
        (fun p _ => ?_)]
    · rw [List.enum_length, sample_sizes_length, Nat.mul_assoc]
    · rw [flatMap_length_const _ _ (if has_imputer then 2 else 1)
        (fun r _ => ?_)]
      · rw [List.length_range]
      · cases has_imputer <;> simp [subsample_repetition_rows]

/-- Claim C3 (counterexample): at a concrete call with
`n_repeats_per_size = 1` and two subsample sizes, the second row's `idx`
column is 1, which is not a repetition index in `0 .. n_repeats_per_size - 1`
— `idx` does not hold the repeat index. -/
theorem c3_counterexample :
    ((subsample_performance_rows (fun _ _ _ => 0) (fun _ _ _ => 0) false
        (fun q => q) (fun q => q) 1 2 2 1 9).all
      (fun row => row.idx < 1)) = false := by
  decide

/-- Claim C3 (amended): in the results table of `subsample_performance`,
the `idx` column holds the sample-size index — which entry
(`0 .. n_subsample_sizes - 1`) of the log-spaced sample-size list produced
the row — constant across the repetitions and imputed/non-imputed rows of a
size, not the repeat index. -/
theorem c3_idx_is_sample_size_index (aucFn f1Fn : Nat → Nat → Bool → ℚ)
    (has_imputer : Bool) (logFn expFn : ℚ → ℚ) (mnT mxT nS nR nTot : Nat) :
    (subsample_performance_rows aucFn f1Fn has_imputer logFn expFn
        mnT mxT nS nR nTot).map SubsampleRow.idx
      = (List.range nS).flatMap
          (fun i => List.replicate (nR * (if has_imputer then 2 else 1)) i) := by
  have hrep : ∀ (i r : Nat) (n : ℤ),
      (subsample_repetition_rows aucFn f1Fn has_imputer n i r).map
          SubsampleRow.idx
        = List.replicate (if has_imputer then 2 else 1) i := by
    intro i r n
    cases has_imputer <;> simp [subsample_repetition_rows, List.replicate]
  unfold subsample_performance_rows
  rw [List.map_flatMap]
  have hblock : ∀ p : Nat × ℤ,
      ((List.range nR).flatMap (fun r =>
          subsample_repetition_rows aucFn f1Fn has_imputer p.2 p.1 r)).map
        SubsampleRow.idx
        = List.replicate (nR * (if has_imputer then 2 else 1)) p.1 := by
    intro p
    rw [List.map_flatMap]
    calc (List.range nR).flatMap (fun r =>
            (subsample_repetition_rows aucFn f1Fn has_imputer p.2 p.1 r).map
              SubsampleRow.idx)
        = (List.range nR).flatMap
            (fun _ => List.replicate (if has_imputer then 2 else 1) p.1) := by
          exact List.flatMap_congr (fun r _ => hrep p.1 r p.2)
      _ = List.replicate ((List.range nR).length *
            (if has_imputer then 2 else 1)) p.1 :=
          flatMap_const_replicate _ _ _
      _ = List.replicate (nR * (if has_imputer then 2 else 1)) p.1 := by
          rw [List.length_range]
  calc (sample_sizes logFn expFn mnT (min ((2 * nTot) / 3) mxT) nS).enum.flatMap
          (fun p => ((List.range nR).flatMap (fun r =>
            subsample_repetition_rows aucFn f1Fn has_imputer p.2 p.1 r)).map
              SubsampleRow.idx)
      = (sample_sizes logFn expFn mnT (min ((2 * nTot) / 3) mxT) nS).enum.flatMap
          (fun p =>
            List.replicate (nR * (if has_imputer then 2 else 1)) p.1) := by
        exact List.flatMap_congr (fun p _ => hblock p)
    _ = (List.range nS).flatMap
          (fun i => List.replicate (nR * (if has_imputer then 2 else 1)) i) := by
        rw [show ((sample_sizes logFn expFn mnT (min ((2 * nTot) / 3) mxT)
              nS).enum.flatMap
            (fun p =>
              List.replicate (nR * (if has_imputer then 2 else 1)) p.1))
          = (((sample_sizes logFn expFn mnT (min ((2 * nTot) / 3) mxT)
              nS).enum.map Prod.fst).flatMap
            (fun i =>
              List.replicate (nR * (if has_imputer then 2 else 1)) i)) from ?_]
        · rw [List.enum_map_fst, sample_sizes_length]
        · rw [List.flatMap_map]

/-- The numpy aggregates of a non-empty list satisfy the specification-side
characterization `describes_stats`. -/
theorem np_stats_describe (sqrtFn : ℚ → ℚ) (l : List ℚ) (hl : l ≠ []) :
    describes_stats sqrtFn l (npMean l) (npMedian l) (npStd sqrtFn l)
      (npMin l) (npMax l) := by
  have hlen : (l.length : ℚ) ≠ 0 := by
    have : l.length ≠ 0 := fun h => hl (List.length_eq_zero.mp h)
    exact_mod_cast this
  refine ⟨div_mul_cancel₀ _ hlen,
    ⟨l.insertionSort (fun a b => a ≤ b), List.perm_insertionSort _ l,
      List.sorted_insertionSort _ l, rfl⟩, rfl, ?_, ?_, ?_, ?_⟩ <;>
    cases l with
    | nil => exact absurd rfl hl
    | cons x xs => ?_
  · exact foldl_min_mem xs x
  · intro y hy
    exact foldl_min_le xs x y hy
  · exact foldl_max_mem xs x
  · intro y hy
    exact le_foldl_max xs x y hy

/-- Claim C6: for every allele row appended by
`leave_out_allele_cross_validation` from non-empty per-fold AUC and
accuracy lists, the columns `auc_mean` / `auc_median` / `auc_std` /
`auc_min` / `auc_max` (and the `accuracy_*` counterparts) are respectively
the arithmetic mean, the median, the (population) standard deviation, the
minimum and the maximum of that list. -/
theorem c6_stats_columns (sqrtFn : ℚ → ℚ) (name : String) (n : Nat)
    (aucs accuracies : List ℚ) (ha : aucs ≠ []) (hb : accuracies ≠ []) :
    describes_stats sqrtFn aucs
      (build_stats_row sqrtFn name n aucs accuracies).auc_mean
      (build_stats_row sqrtFn name n aucs accuracies).auc_median
      (build_stats_row sqrtFn name n aucs accuracies).auc_std
      (build_stats_row sqrtFn name n aucs accuracies).auc_min
      (build_stats_row sqrtFn name n aucs accuracies).auc_max ∧
    describes_stats sqrtFn accuracies
      (build_stats_row sqrtFn name n aucs accuracies).accuracy_mean
      (build_stats_row sqrtFn name n aucs accuracies).accuracy_median
      (build_stats_row sqrtFn name n aucs accuracies).accuracy_std
      (build_stats_row sqrtFn name n aucs accuracies).accuracy_min
      (build_stats_row sqrtFn name n aucs accuracies).accuracy_max :=
  ⟨np_stats_describe sqrtFn aucs ha, np_stats_describe sqrtFn accuracies hb⟩

/-- Claim C6 witness: the theorem applied at concrete per-fold metric
lists. -/
theorem c6_stats_columns_witness :
    (([(1 : ℚ), 3] : List ℚ) ≠ [] ∧ ([(2 : ℚ)] : List ℚ) ≠ []) ∧
    (describes_stats (fun q => q) [(1 : ℚ), 3]
      (build_stats_row (fun q => q) "A0201" 2 [1, 3] [2]).auc_mean
      (build_stats_row (fun q => q) "A0201" 2 [1, 3] [2]).auc_median
      (build_stats_row (fun q => q) "A0201" 2 [1, 3] [2]).auc_std
      (build_stats_row (fun q => q) "A0201" 2 [1, 3] [2]).auc_min
      (build_stats_row (fun q => q) "A0201" 2 [1, 3] [2]).auc_max ∧
    describes_stats (fun q => q) [(2 : ℚ)]
      (build_stats_row (fun q => q) "A0201" 2 [1, 3] [2]).accuracy_mean
      (build_stats_row (fun q => q) "A0201" 2 [1, 3] [2]).accuracy_median
      (build_stats_row (fun q => q) "A0201" 2 [1, 3] [2]).accuracy_std
      (build_stats_row (fun q => q) "A0201" 2 [1, 3] [2]).accuracy_min
      (build_stats_row (fun q => q) "A0201" 2 [1, 3] [2]).accuracy_max) :=
  ⟨⟨by decide, by decide⟩,
   c6_stats_columns (fun q => q) "A0201" 2 [1, 3] [2] (by decide) (by decide)⟩

/-- Claim C2: the model's weight state is saved before cross-validation
begins and restored before each unit of training starts. First part: in
`kfold_cross_validation_for_single_allele` every `fit` starts from the
weights captured at entry (they are restored by `set_weights` before every
non-skipped fold's fit). Second part: in `leave_out_allele_cross_validation`
the weights captured at entry are restored before each eligible allele's
evaluation — the allele's first model interaction is `set_weights` of the
entry weights. Third part: in `subsample_performance` each repetition's
freshly built model's initial weights are snapshotted, the plain fit starts
from them, and they are restored by `set_weights` immediately before the
imputed re-fit, which therefore starts from the same initial weights. -/
theorem c2_weights_saved_and_restored {w s : Type}
    (fitFn : w → List s → List ℚ → Nat → w) (predictFn : w → List s → List ℚ)
    (aucFn : List Bool → List ℚ → ℚ) (powFn : ℚ → ℚ → ℚ) (max_ic50 : ℚ)
    (n_training_epochs cv_folds : Nat) (w0 : w) (X : List s) (Y ic50 : List ℚ)
    (dX : s) (folds : List (List Nat × List Nat))
    (normFn : String → String) (encFn : List s → List s) (logFn sqrtFn : ℚ → ℚ)
    (binary_encoding : Bool) (n_pretrain_epochs min_samples_per_allele : Nat)
    (cvf : Nat) (mic : ℚ) (config_n_epochs : Nat) (w1 : w)
    (foldsFn : Nat → List (List Nat × List Nat))
    (allele_datasets : List (String × AlleleDataset s))
    (pair : String × AlleleDataset s)
    (freshW : Nat → Nat → w) (sub_epochs : Nat) (has_imputer : Bool)
    (i r : Nat) :
    (∀ e ∈ (kfold_cross_validation_for_single_allele fitFn predictFn aucFn
        powFn max_ic50 n_training_epochs cv_folds w0 X Y ic50 dX folds).events,
      e.isFit = true → e.fitStart = some w0) ∧
    ((pyIsdigit pair.1 || pair.1.length < 5) = false →
      ¬ pair.2.X.length < min_samples_per_allele →
      (leave_out_process_allele normFn encFn logFn sqrtFn fitFn predictFn
          aucFn powFn binary_encoding n_pretrain_epochs min_samples_per_allele
          cvf mic config_n_epochs w1 dX foldsFn allele_datasets pair).1.head?
        = some (.setWeights w1)) ∧
    (∀ e ∈ subsample_repetition_events freshW sub_epochs has_imputer i r,
      e.isFit = true → e.fitStart = some (freshW i r)) ∧
    (has_imputer = true →
      subsample_repetition_events freshW sub_epochs has_imputer i r =
        [.fit (freshW i r) sub_epochs, .predict, .setWeights (freshW i r),
         .fit (freshW i r) sub_epochs, .predict]) := by
  refine ⟨?_, ?_, ?_, ?_⟩
  · exact kfold_foldl_fit_invariant fitFn predictFn aucFn powFn max_ic50 _ w0
      X Y ic50 dX folds _ (by intro e he; simp at he)
  · intro h1 h2
    unfold leave_out_process_allele
    rw [h1]
    simp only [Bool.false_eq_true, if_false]
    rw [if_neg h2]
    by_cases hp : 0 < n_pretrain_epochs
    · rw [if_pos hp]
      cases hpre : pretrain_arrays normFn encFn binary_encoding
          allele_datasets (normFn pair.1) with
      | error e => simp
      | ok v => simp
    · rw [if_neg hp]
      simp
  · intro e he hf
    cases has_imputer
    · simp only [subsample_repetition_events, Bool.false_eq_true, if_false,
        List.append_nil, List.mem_cons, List.not_mem_nil, or_false] at he
      rcases he with rfl | rfl
      · rfl
      · simp [MEvent.isFit] at hf
    · simp only [subsample_repetition_events, List.cons_append,
        List.nil_append, List.mem_cons, List.not_mem_nil, or_false, if_true,
        eq_self_iff_true] at he
      rcases he with rfl | rfl | rfl | rfl | rfl
      · rfl
      · simp [MEvent.isFit] at hf
      · simp [MEvent.isFit] at hf
      · rfl
      · simp [MEvent.isFit] at hf
  · intro hi
    rw [hi]
    rfl

/-- Claim C2 witness: the three parts of the theorem applied at concrete
inputs — a one-fold k-fold run with mixed test labels, an eligible allele,
and a repetition with an imputer. -/
theorem c2_weights_saved_and_restored_witness :
    (MEvent.fit (7 : Nat) 3 ∈ (kfold_cross_validation_for_single_allele
        (fun (a : Nat) (_ : List Nat) (_ : List ℚ) (_ : Nat) => a)
        (fun _ _ => []) (fun _ _ => 0) (fun _ _ => 0) 5000 3 5 7
        [1, 2, 3, 4] [0, 0, 0, 0] [(100 : ℚ), 1000, 100, 1000] 0
        [([0, 1], [2, 3])]).events ∧
      (MEvent.fit (7 : Nat) 3).fitStart = some 7) ∧
    ((pyIsdigit "A0201" || "A0201".length < 5) = false ∧
      ¬ ([(1 : Nat), 2, 3, 4, 5].length < 5) ∧
      (leave_out_process_allele (fun t => t) (fun x => x) (fun q => q)
          (fun q => q)
          (fun (a : Nat) (_ : List Nat) (_ : List ℚ) (_ : Nat) => a)
          (fun _ _ => []) (fun _ _ => 0) (fun _ _ => 0) false 0 5 5 5000 3 9 0
          (fun _ => []) []
          ("A0201", ⟨[1, 2, 3, 4, 5], [100, 200, 300, 400, 500]⟩)).1.head?
        = some (.setWeights 9)) ∧
    ((MEvent.fit ((fun i r => i + r : Nat → Nat → Nat) 2 5) 4).fitStart
        = some 7 ∧
      subsample_repetition_events (fun i r => i + r : Nat → Nat → Nat) 4 true
          2 5 =
        [.fit 7 4, .predict, .setWeights 7, .fit 7 4, .predict]) := by
  refine ⟨⟨by decide, ?_⟩, ⟨by decide, by decide, ?_⟩, ⟨?_, ?_⟩⟩
  · exact (c2_weights_saved_and_restored
      (fun (a : Nat) (_ : List Nat) (_ : List ℚ) (_ : Nat) => a)
      (fun _ _ => []) (fun _ _ => 0) (fun _ _ => 0) 5000 3 5 7
      [1, 2, 3, 4] [0, 0, 0, 0] [(100 : ℚ), 1000, 100, 1000] 0
      [([0, 1], [2, 3])] (fun t => t) (fun x => x) (fun q => q) (fun q => q)
      false 0 5 5 5000 3 9 (fun _ => []) []
      ("A0201", ⟨[1, 2, 3, 4, 5], [100, 200, 300, 400, 500]⟩)
      (fun i r => i + r) 4 true 2 5).1
      (MEvent.fit 7 3) (by decide) (by decide)
  · exact (c2_weights_saved_and_restored
      (fun (a : Nat) (_ : List Nat) (_ : List ℚ) (_ : Nat) => a)
      (fun _ _ => []) (fun _ _ => 0) (fun _ _ => 0) 5000 3 5 7
      [1, 2, 3, 4] [0, 0, 0, 0] [(100 : ℚ), 1000, 100, 1000] 0
      [([0, 1], [2, 3])] (fun t => t) (fun x => x) (fun q => q) (fun q => q)
      false 0 5 5 5000 3 9 (fun _ => []) []
      ("A0201", ⟨[1, 2, 3, 4, 5], [100, 200, 300, 400, 500]⟩)
      (fun i r => i + r) 4 true 2 5).2.1 (by decide) (by decide)
  · exact (c2_weights_saved_and_restored
      (fun (a : Nat) (_ : List Nat) (_ : List ℚ) (_ : Nat) => a)
      (fun _ _ => []) (fun _ _ => 0) (fun _ _ => 0) 5000 3 5 7
      [1, 2, 3, 4] [0, 0, 0, 0] [(100 : ℚ), 1000, 100, 1000] 0
      [([0, 1], [2, 3])] (fun t => t) (fun x => x) (fun q => q) (fun q => q)
      false 0 5 5 5000 3 9 (fun _ => []) []
      ("A0201", ⟨[1, 2, 3, 4, 5], [100, 200, 300, 400, 500]⟩)
      (fun i r => i + r) 4 true 2 5).2.2.1
      (MEvent.fit 7 4) (by decide) (by decide)
  · exact (c2_weights_saved_and_restored
      (fun (a : Nat) (_ : List Nat) (_ : List ℚ) (_ : Nat) => a)
      (fun _ _ => []) (fun _ _ => 0) (fun _ _ => 0) 5000 3 5 7
      [1, 2, 3, 4] [0, 0, 0, 0] [(100 : ℚ), 1000, 100, 1000] 0
      [([0, 1], [2, 3])] (fun t => t) (fun x => x) (fun q => q) (fun q => q)
      false 0 5 5 5000 3 9 (fun _ => []) []
      ("A0201", ⟨[1, 2, 3, 4, 5], [100, 200, 300, 400, 500]⟩)
      (fun i r => i + r) 4 true 2 5).2.2.2 rfl

/-- Claim C7 witness: the theorem applied at a concrete two-block run. -/
theorem c7_results_file_append_only_witness :
    (1 < ([10, 20] : List Nat).length) ∧
    results_file_after [99] (([10, 20] : List Nat).take 2) = [10, 20].take 2 :=
  ⟨by decide, (c7_results_file_append_only [99] [10, 20]).2.2 1 (by decide)⟩

end MhcflurryScripts
